import Mathlib

/-!
Shallow embedding of the wycomco-recipes Teams notification processors
(`SharedProcessors/MunkiRepoTeamsNotifier.py` and
`SharedProcessors/MunkiRepoTeamsSummarizer.py`).

The message-card dictionary built by `new_message` and mutated by the
`set_*` / `add_fact` methods is modelled as the structure `Message`;
the constant keys of the dictionary (`"type"`, `"contentType"`,
`"$schema"`, `"themeColor"`, `"type": "MessageCard"`) are never mutated
by any method and are emitted by the wire serialization `wire` below.
Python `None` values are modelled as `Option.none`; a Python f-string
renders `None` as the text `"None"` (`renderOpt`).
-/

/-- One entry of the `facts` list: the dict `\x7b"name": n, "value": v\x7d`
appended by `add_fact`.  The callers pass `data.get(...)` results as
name/value, so both may be Python `None`. -/
structure FactEntry where
  name : Option String
  value : Option String
deriving DecidableEq, Repr

/-- The single element of the `"sections"` list of the card content.
Every method of the source indexes `["sections"][0]`, and `new_message`
always builds exactly one section, so the one section is carried
directly. `activityImage` is `none` when the key is absent from the
dict. -/
structure MsgSection where
  activitySubtitle : String
  activityTitle : String
  facts : List FactEntry
  activityImage : Option String
deriving DecidableEq, Repr

/-- The mutable fields of `message["attachments"][0]["content"]`:
`summary`, `title` and the single section.  All other keys of the
content dict are constants (see `wire`). -/
structure Message where
  summary : String
  title : String
  sect : MsgSection
deriving DecidableEq, Repr

/-- `new_message(title, activity_title, activity_subtitle, activity_image)`
(Notifier lines 142-190, Summarizer lines 167-216): builds the card with
empty facts; the `activityImage` key is added only when `activity_image`
is truthy (a non-empty string). -/
def new_message (title activity_title activity_subtitle activity_image : String) : Message :=
  let message : Message :=
    { summary := title
      title := title
      sect :=
        { activitySubtitle := activity_subtitle
          activityTitle := activity_title
          facts := []
          activityImage := none } }
  if activity_image ≠ "" then
    { message with sect := { message.sect with activityImage := some activity_image } }
  else
    message

/-- `set_title(message, title)` (Notifier lines 192-198): sets both
`summary` and `title` of the content dict. -/
def set_title (message : Message) (title : String) : Message :=
  { message with summary := title, title := title }

/-- `set_activity_title(message, activity_title)` (Notifier lines 200-207). -/
def set_activity_title (message : Message) (activity_title : String) : Message :=
  { message with sect := { message.sect with activityTitle := activity_title } }

/-- `set_activity_subtitle(message, activity_subtitle)` (Notifier lines 209-216). -/
def set_activity_subtitle (message : Message) (activity_subtitle : String) : Message :=
  { message with sect := { message.sect with activitySubtitle := activity_subtitle } }

/-- `set_activity_image(message, activity_image)` (Notifier lines 218-235):
a truthy (non-empty) argument stores the key; a falsy one deletes it,
with the `KeyError` of deleting an absent key caught and ignored. -/
def set_activity_image (message : Message) (activity_image : String) : Message :=
  if activity_image ≠ "" then
    { message with sect := { message.sect with activityImage := some activity_image } }
  else
    { message with sect := { message.sect with activityImage := none } }

/-- `add_fact(message, name, value)` (Notifier lines 237-244): appends
`\x7b"name": name, "value": value\x7d` to the end of the `facts` list. -/
def add_fact (message : Message) (name value : Option String) : Message :=
  { message with sect :=
      { message.sect with facts := message.sect.facts ++ [⟨name, value⟩] } }

/-- JSON values, for the wire encoding produced by `json.dumps` on the
message dict.  An object is its key/value list in dict insertion
order. -/
inductive J where
  | null : J
  | str : String → J
  | arr : List J → J
  | obj : List (String × J) → J
deriving Repr

/-- A Python value that is `None` or a string, as a JSON value. -/
def jOfOpt : Option String → J
  | none => J.null
  | some s => J.str s

/-- Wire form of one fact dict. -/
def wireFact (f : FactEntry) : J :=
  J.obj [("name", jOfOpt f.name), ("value", jOfOpt f.value)]

/-- Key/value list of the serialized section dict.  The `activityImage`
key is present exactly when the field is; `new_message` and
`set_activity_image` insert it after the literal keys, so it serializes
last. -/
def wireSectionKVs (s : MsgSection) : List (String × J) :=
  [("activitySubtitle", J.str s.activitySubtitle),
   ("activityTitle", J.str s.activityTitle),
   ("facts", J.arr (s.facts.map wireFact))] ++
  (match s.activityImage with
   | some u => [("activityImage", J.str u)]
   | none => [])

/-- `json.dumps(message)`: the full payload shape built by `new_message`,
constant keys included. -/
def wire (m : Message) : J :=
  J.obj
    [("type", J.str "message"),
     ("attachments", J.arr
       [J.obj
         [("contentType", J.str "application/vnd.microsoft.teams.card.o365connector"),
          ("content", J.obj
            [("$schema", J.str "https://schema.org/extensions"),
             ("sections", J.arr [J.obj (wireSectionKVs m.sect)]),
             ("summary", J.str m.summary),
             ("themeColor", J.str "778eb1"),
             ("title", J.str m.title),
             ("type", J.str "MessageCard")])]])]

/-!
## Delivery engine

`_curl_json_poster` and `send_teams_message` appear verbatim in both
`MunkiRepoTeamsNotifier.py` (lines 78-140) and
`MunkiRepoTeamsSummarizer.py` (lines 103-165); they are embedded once.
The external curl subprocess is modelled by a `TransportEvent`
describing what one invocation of curl did.
-/

/-- Errors (Python exceptions) that the embedded code can raise. -/
inductive Err where
  | processorError : String → Err
  | nameError : String → Err
  | typeError : Err
  | fileNotFoundError : Err
  | writeError : Err
  | attributeError : Err
deriving DecidableEq, Repr

/-- Outcome of one invocation of the curl subprocess: either
`subprocess.Popen` itself raised `IOError`/`OSError`, or curl ran and
produced an exit code plus captured stdout/stderr. -/
inductive TransportEvent where
  | popenError : TransportEvent
  | run : Int → String → String → TransportEvent
deriving DecidableEq, Repr

/-- `_curl_json_poster(message_json, teams_webhook_url)` (Notifier lines
78-119).  A `Popen` failure re-raises as `ProcessorError`; a non-zero
exit code or any stderr output raises `ProcessorError`.  The diagnostic
`self.output` calls and the `return False` of source lines 111-118 come
after that `raise` and are unreachable, so the function can only raise
or return `True`. -/
def curl_json_poster : TransportEvent → Except Err Bool
  | TransportEvent.popenError =>
      Except.error (Err.processorError "popen failed")
  | TransportEvent.run returncode _out err =>
      if returncode ≠ 0 ∨ err ≠ "" then
        Except.error (Err.processorError
          "curl returned an error while sending teams message via webhook.")
      else
        Except.ok true

deriving instance DecidableEq for Except

/-- Observable trace of `send_teams_message`: how many times
`_curl_json_poster` was invoked, how many `sleep(10)` pauses ran, and
whether the call returned or raised. -/
structure SendTrace where
  attempts : Nat
  sleeps : Nat
  result : Except Err Unit
deriving DecidableEq, Repr

/-- The `for count in range(1, 6)` loop of `send_teams_message`
(Notifier lines 127-140), structurally recursive on the number of
iterations remaining.  A raise from `_curl_json_poster` propagates; a
`True` result breaks; a `False` result sleeps 10 seconds and continues;
when the range is exhausted without a break, the `for`/`else` clause
raises the 5-attempts `ProcessorError`. -/
def sendLoop (events : Nat → TransportEvent) :
    Nat → Nat → Nat → Nat → SendTrace
  | 0, _count, attempts, sleeps =>
      ⟨attempts, sleeps,
        Except.error (Err.processorError "ERROR: Teams webhook failed to send 5 times.")⟩
  | remaining + 1, count, attempts, sleeps =>
      match curl_json_poster (events count) with
      | Except.error e => ⟨attempts + 1, sleeps, Except.error e⟩
      | Except.ok true => ⟨attempts + 1, sleeps, Except.ok ()⟩
      | Except.ok false => sendLoop events remaining (count + 1) (attempts + 1) (sleeps + 1)

/-- `send_teams_message(teams_webhook_url, message)` (Notifier lines
121-140): serializes the message with `json.dumps` and runs the retry
loop; `events k` is what the curl subprocess does on attempt `k`
(counted from 1). -/
def send_teams_message (events : Nat → TransportEvent) : SendTrace :=
  sendLoop events 5 1 0 0

/-!
## Upstream summaries and the two translators
-/

/-- The `data` dict of a MunkiImporter summary result; every field is
read with `.get`, so each is `none` when the key is absent. -/
structure MunkiData where
  name : Option String
  version : Option String
  catalogs : Option String
  pkginfo_path : Option String
  pkg_repo_path : Option String
  icon_repo_path : Option String
deriving DecidableEq, Repr

/-- The `data` dict of a MunkiAutoStaging summary result. -/
structure StagingData where
  name : Option String
  versions : Option String
  staging_catalog : Option String
  production_catalog : Option String
deriving DecidableEq, Repr

/-- An upstream MunkiImporter summary: `summary.get("data")` is `none`
when the `data` key is absent. -/
structure MunkiSummary where
  data : Option MunkiData
deriving DecidableEq, Repr

/-- An upstream MunkiAutoStaging summary. -/
structure StagingSummary where
  data : Option StagingData
deriving DecidableEq, Repr

/-- How a Python f-string renders a `.get` result: `None` renders as
the text `"None"`, a string renders as itself. -/
def renderOpt : Option String → String
  | none => "None"
  | some s => s

/-- The compact fact value built by the Summarizer's `munki_message`
(line 292 of `MunkiRepoTeamsSummarizer.py`). -/
def compactImportLine (data : MunkiData) : String :=
  "imported ver. " ++ renderOpt data.version ++ " -> " ++ renderOpt data.catalogs

/-- The compact fact value built by the Summarizer's `staging_message`
(lines 316-317 of `MunkiRepoTeamsSummarizer.py`). -/
def compactStagingLine (data : StagingData) : String :=
  "staged ver. " ++ renderOpt data.versions ++ " " ++
    renderOpt data.staging_catalog ++ " -> " ++ renderOpt data.production_catalog

/-- `munki_message(message, munki_summary, verbosity)` of the
Summarizer (lines 272-294): one compact fact keyed by the summary's
`name`.  When the summary has no `data` key, `data` is `None` and
`data.get("name")` raises `AttributeError`; a missing `name` key just
yields `None` as the fact name.  Returns the message alone (not a
tuple). -/
def summarizer_munki_message (message : Message) (munki_summary : MunkiSummary) :
    Except Err Message :=
  match munki_summary.data with
  | none => Except.error Err.attributeError
  | some data =>
      Except.ok (add_fact message data.name (some (compactImportLine data)))

/-- `staging_message(message, autostaging_summary, verbosity)` of the
Summarizer (lines 296-319). -/
def summarizer_staging_message (message : Message) (autostaging_summary : StagingSummary) :
    Except Err Message :=
  match autostaging_summary.data with
  | none => Except.error Err.attributeError
  | some data =>
      Except.ok (add_fact message data.name (some (compactStagingLine data)))

/-- `munki_message(message, munki_summary, verbosity)` of the Notifier
(lines 246-278, detailed mode): per-attribute facts gated by verbosity
thresholds; the icon-path fact substitutes `"no icon path given"` for a
falsy (absent or empty) `icon_repo_path`.  Returns `(message, name)`. -/
def notifier_munki_message (message : Message) (munki_summary : MunkiSummary)
    (verbosity : Nat) : Except Err (Message × Option String) :=
  match munki_summary.data with
  | none => Except.error Err.attributeError
  | some data =>
      let m := message
      let m := if verbosity ≥ 3 then add_fact m (some "Name") data.name else m
      let m := add_fact m (some "new Version") data.version
      let m := if verbosity ≥ 1 then add_fact m (some "in Catalogs") data.catalogs else m
      let m := if verbosity ≥ 2 then
          add_fact (add_fact m (some "PkgInfo Path") data.pkginfo_path)
            (some "Package Path") data.pkg_repo_path
        else m
      let m := if verbosity ≥ 3 then
          (match data.icon_repo_path with
           | some p =>
               if p ≠ "" then add_fact m (some "Icon Path") (some p)
               else add_fact m (some "Icon Path") (some "no icon path given")
           | none => add_fact m (some "Icon Path") (some "no icon path given"))
        else m
      Except.ok (m, data.name)

/-- The facts list of the message produced by the Notifier's
`munki_message` at a given verbosity (empty on the unreachable error
case). -/
def notifierFacts (message : Message) (munki_summary : MunkiSummary)
    (verbosity : Nat) : List FactEntry :=
  match notifier_munki_message message munki_summary verbosity with
  | Except.ok (m, _) => m.sect.facts
  | Except.error _ => []

/-!
## The Summarizer's `main` (lines 321-411 of `MunkiRepoTeamsSummarizer.py`)

The persisted messages file can hold a JSON document; the only JSON
values the code ever stores or loads here are full message dicts and
strings, captured by `MsgVal`.  The file's byte content is abstracted
as `FileContent`: `jsonOf v canonical` are bytes that parse as the
value `v`, with `canonical = true` exactly when those bytes equal
`json.dump`'s serialization of `v`; `notJson` are bytes that do not
parse as JSON (an empty, truncated file included).  `json.dump` always
writes `jsonOf v true`, so equality of `FileState` values coincides
with byte-for-byte equality of the file.

The source of `main` references four names that are never bound in its
scope — `JSONDecodeError` (line 355), `verbosity` (lines 375, 380),
`os` and `msg_file` (lines 396, 402, 409) — and its inner
`except (FileNotFoundError()):` clauses list an exception *instance*.
The embedding reproduces what CPython does there: evaluating an unbound
name raises `NameError`; when that happens inside a `try` whose
`except` clause names an instance, matching raises `TypeError`.
-/

/-- A JSON value that can sit in the messages file: a message dict or a
string. -/
inductive MsgVal where
  | str : String → MsgVal
  | msg : Message → MsgVal
deriving DecidableEq, Repr

/-- Python truthiness of a loaded value: an empty string is falsy, a
message dict (which always has keys) is truthy. -/
def pyTruthy : MsgVal → Bool
  | MsgVal.str s => s ≠ ""
  | MsgVal.msg _ => true

/-- Byte content of the messages file, abstracted by its JSON parse. -/
inductive FileContent where
  | jsonOf : MsgVal → Bool → FileContent
  | notJson : FileContent
deriving DecidableEq, Repr

/-- The file at `msg_file_path`. -/
inductive FileState where
  | noFile : FileState
  | file : FileContent → FileState
deriving DecidableEq, Repr

/-- Python `x or d` for a string-valued env entry (absent entries read
as the falsy `""`). -/
def orStr (x d : String) : String :=
  if x ≠ "" then x else d

/-- The env entries `main` reads (lines 329-347), before the `or`
defaulting which `summarizerMain` itself performs.  The two summary
results are `none` when absent (`env.get(...) or ""` leaves them
falsy). -/
structure SummEnv where
  teams_webhook_url : String
  teams_username : String
  teams_icon_url : String
  munki_repo_changed : Bool
  munki_importer_summary_result : Option MunkiSummary
  munki_autostaging_summary_result : Option StagingSummary
  msg_file_path : String
  msg_file_clear_at_start : Bool
  msg_file_clear_after_send : Bool
  msg_file_clear_at_finish : Bool
deriving DecidableEq, Repr

/-- Observable trace of one `main` invocation: final state of the
messages file, number of webhook post attempts and 10-second pauses,
and whether `main` returned or raised. -/
structure MainTrace where
  fs : FileState
  attempts : Nat
  sleeps : Nat
  result : Except Err Unit
deriving DecidableEq, Repr

/-- Lines 349-359 (acquire): with a file path and `clear_at_start`
false, `open(path, 'r')` raises an uncaught `FileNotFoundError` when
the file is missing; `json.load` failure on non-JSON bytes raises
`json.JSONDecodeError`, and evaluating the handler tuple
`(IOError, OSError, JSONDecodeError)` then raises
`NameError("JSONDecodeError")`, which propagates — the fallback body
never runs.  Otherwise `message` stays the falsy `""`. -/
def acquireMessage (msg_file_path : String) (clear_at_start : Bool)
    (fs : FileState) : Except Err MsgVal :=
  if msg_file_path ≠ "" ∧ clear_at_start = false then
    match fs with
    | FileState.noFile => Except.error Err.fileNotFoundError
    | FileState.file (FileContent.jsonOf v _) => Except.ok v
    | FileState.file FileContent.notJson => Except.error (Err.nameError "JSONDecodeError")
  else
    Except.ok (MsgVal.str "")

/-- Lines 407-411 (finish): `if msg_file_clear_at_finish:` then
`try: os.remove(msg_file)` — `os` is unbound, so `NameError` is raised
inside the `try`, and matching it against the instance
`FileNotFoundError()` raises `TypeError`, which propagates; the file is
never actually removed. -/
def finishClear (clear_at_finish : Bool) (fs : FileState) (attempts sleeps : Nat) :
    MainTrace :=
  if clear_at_finish then
    ⟨fs, attempts, sleeps, Except.error Err.typeError⟩
  else
    ⟨fs, attempts, sleeps, Except.ok ()⟩

/-- `main` of `MunkiRepoTeamsSummarizer.py` (lines 321-411).
`fs0` is the state of the file at `msg_file_path` when the run starts,
`now` is `datetime.now().strftime("%Y-%m-%d %H:%M:%S")`, `events k`
is what curl does on webhook post attempt `k`, and `writeFails` says
whether `json.dump` in the persist step raises `IOError`/`OSError`.

Walkthrough of the translation:
* lines 329-347 apply the Python `or` defaults; note line 344-345 makes
  `msg_file_clear_after_send` unconditionally truthy (`x or True`);
* lines 349-369: acquire (see `acquireMessage`), then a falsy `message`
  is replaced by a fresh card stamped `"start: " ++ now`;
* lines 371-381: with `munki_repo_changed` and a summary present, the
  call `self.munki_message(message, munki_summary, verbosity)` (or the
  staging one) evaluates the unbound name `verbosity` and raises
  `NameError` before any call happens;
* lines 383-389: persist — `open(path, 'w')` truncates the file first,
  then `json.dump` either writes the canonical serialization or fails,
  leaving the truncated file and re-raising the error;
* lines 391-405: deliver when a webhook URL is set.  On success,
  `msg_file_clear_after_send` (always truthy) runs
  `os.remove(msg_file)`: `os` is unbound, so `NameError` then
  `TypeError` (instance in the `except` clause) propagates out of the
  outer `try`, which only catches `ProcessorError`.  On a
  `ProcessorError` from the send, the handler re-raises only inside
  `if msg_file_clear_at_finish:` — and there the same broken
  `os.remove` raises `TypeError` before the `raise teams_error` line —
  while with `clear_at_finish` false the delivery failure is swallowed
  and execution falls through to line 407;
* lines 407-411: finish (see `finishClear`). -/
def summarizerMain (env : SummEnv) (fs0 : FileState) (now : String)
    (events : Nat → TransportEvent) (writeFails : Bool) : MainTrace :=
  let teams_webhook_url := env.teams_webhook_url
  let teams_username := orStr env.teams_username "AutoPkg"
  let teams_icon_url := orStr env.teams_icon_url "https://munkibuilds.org/logo.jpg"
  let munki_repo_changed := env.munki_repo_changed
  let munki_summary := env.munki_importer_summary_result
  let autostaging_summary := env.munki_autostaging_summary_result
  let msg_file_path := env.msg_file_path
  let clear_at_start := env.msg_file_clear_at_start
  let _clear_after_send := env.msg_file_clear_after_send || true
  let clear_at_finish := env.msg_file_clear_at_finish
  match acquireMessage msg_file_path clear_at_start fs0 with
  | Except.error e => ⟨fs0, 0, 0, Except.error e⟩
  | Except.ok loaded =>
    let message : MsgVal :=
      if pyTruthy loaded then loaded
      else
        MsgVal.msg (set_activity_title
          (new_message teams_username "" "" teams_icon_url)
          ("start: " ++ now))
    if munki_repo_changed ∧ (munki_summary.isSome ∨ autostaging_summary.isSome) then
      ⟨fs0, 0, 0, Except.error (Err.nameError "verbosity")⟩
    else
      let persisted : FileState × Except Err Unit :=
        if msg_file_path ≠ "" ∧ clear_at_finish = false then
          if writeFails then
            (FileState.file FileContent.notJson, Except.error Err.writeError)
          else
            (FileState.file (FileContent.jsonOf message true), Except.ok ())
        else
          (fs0, Except.ok ())
      match persisted with
      | (fs1, Except.error e) => ⟨fs1, 0, 0, Except.error e⟩
      | (fs1, Except.ok _) =>
        if teams_webhook_url ≠ "" then
          let tr := send_teams_message events
          match tr.result with
          | Except.ok _ =>
              ⟨fs1, tr.attempts, tr.sleeps, Except.error Err.typeError⟩
          | Except.error _ =>
              if clear_at_finish then
                ⟨fs1, tr.attempts, tr.sleeps, Except.error Err.typeError⟩
              else
                finishClear clear_at_finish fs1 tr.attempts tr.sleeps
        else
          finishClear clear_at_finish fs1 0 0

/-!
## Document operation language (for the summary/title invariant)
-/

/-- The public document operations: `set_title`, `set_activity_title`,
`set_activity_subtitle`, `set_activity_image`, `add_fact`. -/
inductive DocOp where
  | opSetTitle : String → DocOp
  | opSetActivityTitle : String → DocOp
  | opSetActivitySubtitle : String → DocOp
  | opSetActivityImage : String → DocOp
  | opAddFact : Option String → Option String → DocOp
deriving DecidableEq, Repr

/-- Run one document operation. -/
def applyDocOp (message : Message) : DocOp → Message
  | DocOp.opSetTitle t => set_title message t
  | DocOp.opSetActivityTitle t => set_activity_title message t
  | DocOp.opSetActivitySubtitle t => set_activity_subtitle message t
  | DocOp.opSetActivityImage u => set_activity_image message u
  | DocOp.opAddFact n v => add_fact message n v

/-- Run a sequence of document operations left to right. -/
def applyDocOps (message : Message) (ops : List DocOp) : Message :=
  ops.foldl applyDocOp message

/-!
## Concrete inputs used by the claim theorems
-/

/-- A transport on which curl exits 22 on every attempt. -/
def failTransport : Nat → TransportEvent := fun _ => TransportEvent.run 22 "" ""

/-- A transport on which curl succeeds on every attempt. -/
def okTransport : Nat → TransportEvent := fun _ => TransportEvent.run 0 "" ""

/-- A card holding one compact fact, as a prior Summarizer run would
persist it. -/
def oneFactDoc : Message :=
  add_fact (new_message "AutoPkg" "" "" "https://munkibuilds.org/logo.jpg")
    (some "Firefox") (some "imported ver. 1.0 -> testing")

/-- An ImportResult `data` dict with the mandatory `name` key missing. -/
def noNameData : MunkiData :=
  { name := none
    version := some "2.0"
    catalogs := some "testing"
    pkginfo_path := none
    pkg_repo_path := none
    icon_repo_path := none }

/-- A fully populated ImportResult `data` dict. -/
def fullData : MunkiData :=
  { name := some "Firefox"
    version := some "1.0"
    catalogs := some "testing"
    pkginfo_path := some "/repo/pkgsinfo/Firefox-1.0.plist"
    pkg_repo_path := some "/repo/pkgs/Firefox-1.0.pkg"
    icon_repo_path := none }

/-- An empty card. -/
def emptyCard : Message := new_message "AutoPkg" "" "" ""

/-- Env: webhook configured, nothing changed, persisted file in use,
all clear flags false. -/
def envC2 : SummEnv :=
  { teams_webhook_url := "https://example.org/hook"
    teams_username := ""
    teams_icon_url := ""
    munki_repo_changed := false
    munki_importer_summary_result := none
    munki_autostaging_summary_result := none
    msg_file_path := "/tmp/messages.json"
    msg_file_clear_at_start := false
    msg_file_clear_after_send := false
    msg_file_clear_at_finish := false }

/-- Env: no webhook, nothing changed, persisted file in use, flags at
their documented defaults. -/
def envC3 : SummEnv :=
  { teams_webhook_url := ""
    teams_username := ""
    teams_icon_url := ""
    munki_repo_changed := false
    munki_importer_summary_result := none
    munki_autostaging_summary_result := none
    msg_file_path := "/tmp/messages.json"
    msg_file_clear_at_start := false
    msg_file_clear_after_send := true
    msg_file_clear_at_finish := false }

/-- Env for the clearing-matrix scenario: `clear_at_start` false,
`clear_after_send` true, `clear_at_finish` false, repo changed, one
MunkiImporter summary, webhook configured. -/
def envC4 : SummEnv :=
  { teams_webhook_url := "https://example.org/hook"
    teams_username := ""
    teams_icon_url := ""
    munki_repo_changed := true
    munki_importer_summary_result := some ⟨some fullData⟩
    munki_autostaging_summary_result := none
    msg_file_path := "/tmp/messages.json"
    msg_file_clear_at_start := false
    msg_file_clear_after_send := true
    msg_file_clear_at_finish := false }

/-- Env: webhook configured, nothing changed, no summaries. -/
def envC5 : SummEnv :=
  { teams_webhook_url := "https://example.org/hook"
    teams_username := ""
    teams_icon_url := ""
    munki_repo_changed := false
    munki_importer_summary_result := none
    munki_autostaging_summary_result := none
    msg_file_path := "/tmp/messages.json"
    msg_file_clear_at_start := false
    msg_file_clear_after_send := true
    msg_file_clear_at_finish := false }

/-- Env: no webhook, nothing changed, no summaries. -/
def envC5noUrl : SummEnv :=
  { envC5 with teams_webhook_url := "" }

/-- Env: no webhook, nothing changed, `clear_at_start` true (persist
runs on a fresh card). -/
def envC10 : SummEnv :=
  { teams_webhook_url := ""
    teams_username := ""
    teams_icon_url := ""
    munki_repo_changed := false
    munki_importer_summary_result := none
    munki_autostaging_summary_result := none
    msg_file_path := "/tmp/messages.json"
    msg_file_clear_at_start := true
    msg_file_clear_after_send := true
    msg_file_clear_at_finish := false }

/-!
## Theorems for the claims
-/

/-- `_curl_json_poster` can only raise or return `True`: the diagnostic
output and the `return False` of the source are unreachable dead code
after the `raise`. -/
lemma curl_json_poster_not_false (ev : TransportEvent) :
    curl_json_poster ev ≠ Except.ok false := by
  cases ev with
  | popenError => simp [curl_json_poster]
  | run rc out err =>
      simp only [curl_json_poster]
      split <;> simp

/-- One unrolling of the retry loop. -/
lemma sendLoop_succ_eq (events : Nat → TransportEvent)
    (remaining count attempts sleeps : Nat) :
    sendLoop events (remaining + 1) count attempts sleeps =
      match curl_json_poster (events count) with
      | Except.error e => ⟨attempts + 1, sleeps, Except.error e⟩
      | Except.ok true => ⟨attempts + 1, sleeps, Except.ok ()⟩
      | Except.ok false => sendLoop events remaining (count + 1) (attempts + 1) (sleeps + 1) :=
  rfl

/-- Claim C1: the claimed retry bound does not hold on the code.
Because `_curl_json_poster` raises on every failed attempt (its
`return False` is dead code after the `raise`), `send_teams_message`
makes exactly one webhook post attempt on every run, with no 10-second
pauses: an always-failing transport raises the per-attempt curl
`ProcessorError` after 1 attempt (never the 5-attempt terminal error),
and a transport that succeeds immediately reports success after 1
attempt.  The 5-attempt loop and its `DeliveryFailed` are unreachable,
which contradicts the loop's own giving-up message. -/
theorem send_teams_message_never_retries :
    (∀ events, (send_teams_message events).attempts = 1 ∧
      (send_teams_message events).sleeps = 0) ∧
    send_teams_message failTransport =
      ⟨1, 0, Except.error (Err.processorError
        "curl returned an error while sending teams message via webhook.")⟩ ∧
    send_teams_message okTransport = ⟨1, 0, Except.ok ()⟩ := by
  refine ⟨fun events => ?_, by decide, by decide⟩
  have h5 : send_teams_message events = sendLoop events (4 + 1) 1 0 0 := rfl
  rw [h5, sendLoop_succ_eq]
  rcases hc : curl_json_poster (events 1) with e | b
  · simp
  · cases b
    · exact absurd hc (curl_json_poster_not_false _)
    · simp

/-- Claim C2: on a delivery failure with `msg_file_clear_at_finish`
false, `main` does not re-raise the delivery failure: the transport
fails (a `ProcessorError` from the send), yet the invocation completes
with success, the error swallowed by the `except` handler whose
`raise teams_error` sits inside `if msg_file_clear_at_finish:`. -/
theorem delivery_failure_swallowed_without_clear_at_finish :
    (send_teams_message failTransport).result =
      Except.error (Err.processorError
        "curl returned an error while sending teams message via webhook.") ∧
    summarizerMain envC2 (FileState.file (FileContent.jsonOf (MsgVal.msg oneFactDoc) true))
        "2024-01-01 00:00:00" failTransport false =
      ⟨FileState.file (FileContent.jsonOf (MsgVal.msg oneFactDoc) true), 1, 0,
        Except.ok ()⟩ := by
  decide

/-- Claim C3: the decode fallback does not work on the code.  With a
file path set and `clear_at_start` false, a stored file that is not
valid JSON makes the invocation raise `NameError` (evaluating the
handler tuple hits the unbound `JSONDecodeError`), and a missing file
raises an uncaught `FileNotFoundError` from `open` — in neither case
does `main` proceed with a fresh stamped document. -/
theorem decode_failure_raises_instead_of_fallback :
    summarizerMain envC3 (FileState.file FileContent.notJson)
        "2024-01-01 00:00:00" okTransport false =
      ⟨FileState.file FileContent.notJson, 0, 0,
        Except.error (Err.nameError "JSONDecodeError")⟩ ∧
    summarizerMain envC3 FileState.noFile "2024-01-01 00:00:00" okTransport false =
      ⟨FileState.noFile, 0, 0, Except.error Err.fileNotFoundError⟩ := by
  decide

/-- Claim C4: the clearing-policy-matrix scenario does not run as
claimed.  With `clear_at_start=false`, `clear_after_send=true`,
`clear_at_finish=false`, a persisted one-fact document, a changed repo
with one import summary, and a transport that would succeed at once,
`main` raises `NameError` on the unbound name `verbosity` before
persisting or delivering: the file keeps its prior one-fact content,
zero delivery attempts are made, and nothing is deleted. -/
theorem clearing_matrix_scenario_crashes_early :
    summarizerMain envC4 (FileState.file (FileContent.jsonOf (MsgVal.msg oneFactDoc) true))
        "2024-01-01 00:00:00" okTransport false =
      ⟨FileState.file (FileContent.jsonOf (MsgVal.msg oneFactDoc) true), 0, 0,
        Except.error (Err.nameError "verbosity")⟩ := by
  decide

/-- Claim C5, counterexample: with `changed=false` and no summaries but
a webhook URL configured, `main` still makes a delivery attempt, and it
rewrites the persisted file (here: a stored document whose bytes are
not the canonical `json.dump` serialization is rewritten canonically,
so the bytes change) — refuting both halves of the claim as stated. -/
theorem idempotent_noop_refuted :
    (summarizerMain envC5 (FileState.file (FileContent.jsonOf (MsgVal.msg oneFactDoc) false))
        "2024-01-01 00:00:00" okTransport false).attempts = 1 ∧
    (summarizerMain envC5 (FileState.file (FileContent.jsonOf (MsgVal.msg oneFactDoc) false))
        "2024-01-01 00:00:00" okTransport false).fs ≠
      FileState.file (FileContent.jsonOf (MsgVal.msg oneFactDoc) false) := by
  decide

/-- Claim C5, amended: with `changed=false`, no summaries, **no webhook
URL configured**, `clear_at_start` and `clear_at_finish` false, and a
readable persisted document that is truthy, the invocation makes no
delivery attempt and rewrites the file with the canonical serialization
of the very document it already held — so the bytes are unchanged
exactly when the stored bytes already were that canonical
serialization (as they are when this program's own persist step wrote
them). -/
theorem idempotent_noop_amended (env : SummEnv) (fs0 : FileState) (v : MsgVal) (c : Bool)
    (now : String) (events : Nat → TransportEvent)
    (hurl : env.teams_webhook_url = "")
    (hch : env.munki_repo_changed = false)
    (hpath : env.msg_file_path ≠ "")
    (hstart : env.msg_file_clear_at_start = false)
    (hfin : env.msg_file_clear_at_finish = false)
    (hfs : fs0 = FileState.file (FileContent.jsonOf v c))
    (htr : pyTruthy v = true) :
    summarizerMain env fs0 now events false =
      ⟨FileState.file (FileContent.jsonOf v true), 0, 0, Except.ok ()⟩ := by
  subst hfs
  unfold summarizerMain acquireMessage finishClear
  simp [hurl, hch, hpath, hstart, hfin, htr]

/-- Witness for the amended C5 theorem at a concrete input. -/
theorem idempotent_noop_amended_witness :
    summarizerMain envC5noUrl
        (FileState.file (FileContent.jsonOf (MsgVal.msg oneFactDoc) false))
        "2024-01-01 00:00:00" okTransport false =
      ⟨FileState.file (FileContent.jsonOf (MsgVal.msg oneFactDoc) true), 0, 0,
        Except.ok ()⟩ :=
  idempotent_noop_amended envC5noUrl _ (MsgVal.msg oneFactDoc) false
    "2024-01-01 00:00:00" okTransport rfl rfl (by decide) rfl rfl rfl rfl

/-- Claim C6, counterexample: a summary whose `data` lacks the
mandatory `name` does not make the translator propagate an error — the
Summarizer's `munki_message` returns normally and produces a fact whose
name is `None`. -/
theorem missing_name_produces_fact_not_error :
    summarizer_munki_message emptyCard ⟨some noNameData⟩ =
      Except.ok (add_fact emptyCard none (some "imported ver. 2.0 -> testing")) ∧
    (add_fact emptyCard none (some "imported ver. 2.0 -> testing")).sect.facts =
      [⟨none, some "imported ver. 2.0 -> testing"⟩] := by
  decide

/-- Claim C6, amended: translation never fails when the summary's
`data` record is present — missing attributes, the mandatory `name`
included, just yield `None`-valued fields (rendered as the text "None"
inside compact values) — and fails (with `AttributeError`) only when
the `data` record itself is absent. -/
theorem translators_never_fail_on_present_data (message : Message) (data : MunkiData)
    (verbosity : Nat) :
    summarizer_munki_message message ⟨some data⟩ =
      Except.ok (add_fact message data.name (some (compactImportLine data))) ∧
    (∃ p, notifier_munki_message message ⟨some data⟩ verbosity = Except.ok p) ∧
    summarizer_munki_message message ⟨none⟩ = Except.error Err.attributeError :=
  ⟨rfl, ⟨_, rfl⟩, rfl⟩

/-- Claim C7: for every document, after `set_activity_image(doc, "")`
the serialized section carries no `activityImage` key at all, and after
`set_activity_image(doc, "http://x")` it carries that key with exactly
that value. -/
theorem activity_image_wire_invariant (message : Message) :
    List.lookup "activityImage" (wireSectionKVs (set_activity_image message "").sect) =
      none ∧
    List.lookup "activityImage"
        (wireSectionKVs (set_activity_image message "http://x").sect) =
      some (J.str "http://x") :=
  ⟨rfl, rfl⟩

/-- Claim C8: for any fixed ImportResult and verbosity `v ≤ 2`, every
fact in the message produced by the Notifier's detailed-mode
`munki_message` at verbosity `v` also appears in the message it
produces at verbosity `v + 1`. -/
theorem notifier_verbosity_monotone (message : Message) (munki_summary : MunkiSummary)
    (verbosity : Nat) (hv : verbosity ≤ 2) :
    ∀ f, f ∈ notifierFacts message munki_summary verbosity →
      f ∈ notifierFacts message munki_summary (verbosity + 1) := by
  intro f hf
  rcases munki_summary with ⟨_ | data⟩
  · simp [notifierFacts, notifier_munki_message] at hf
  · rcases data with ⟨n, ver, cat, pip, prp, irp⟩
    interval_cases verbosity
    · simp [notifierFacts, notifier_munki_message, add_fact] at hf ⊢
      tauto
    · simp [notifierFacts, notifier_munki_message, add_fact] at hf ⊢
      tauto
    · rcases irp with _ | p
      · simp [notifierFacts, notifier_munki_message, add_fact] at hf ⊢
        tauto
      · by_cases hp : p = "" <;>
          simp [notifierFacts, notifier_munki_message, add_fact, hp] at hf ⊢ <;>
          tauto

/-- Witness for C8 at a concrete input: the "new Version" fact emitted
at verbosity 1 is still present at verbosity 2. -/
theorem notifier_verbosity_monotone_witness :
    (⟨some "new Version", some "1.0"⟩ : FactEntry) ∈
      notifierFacts emptyCard ⟨some fullData⟩ 2 :=
  notifier_verbosity_monotone emptyCard ⟨some fullData⟩ 1 (by decide) _ (by decide)

/-- Claim C9: for every document created by `new_message` and every
sequence of the public document operations, the content's `summary`
field always equals its `title` field: both are set together at
creation and by `set_title`, and no other operation touches either. -/
theorem summary_always_equals_title (title atitle asubtitle aimage : String)
    (ops : List DocOp) :
    (applyDocOps (new_message title atitle asubtitle aimage) ops).summary =
    (applyDocOps (new_message title atitle asubtitle aimage) ops).title := by
  have hstep : ∀ (m : Message) (op : DocOp),
      m.summary = m.title → (applyDocOp m op).summary = (applyDocOp m op).title := by
    intro m op hm
    cases op with
    | opSetTitle t => simp [applyDocOp, set_title]
    | opSetActivityTitle t => simpa [applyDocOp, set_activity_title] using hm
    | opSetActivitySubtitle t => simpa [applyDocOp, set_activity_subtitle] using hm
    | opSetActivityImage u =>
        simp only [applyDocOp, set_activity_image]
        split <;> simpa using hm
    | opAddFact nm vl => simpa [applyDocOp, add_fact] using hm
  have hnew : (new_message title atitle asubtitle aimage).summary =
      (new_message title atitle asubtitle aimage).title := by
    simp only [new_message]
    split <;> rfl
  have key : ∀ (ops : List DocOp) (m : Message), m.summary = m.title →
      (applyDocOps m ops).summary = (applyDocOps m ops).title := by
    intro ops
    induction ops with
    | nil => intro m hm; simpa [applyDocOps] using hm
    | cons op rest ih =>
        intro m hm
        simpa [applyDocOps] using ih (applyDocOp m op) (hstep m op hm)
  exact key ops _ hnew

/-- Claim C10: the persist step is not atomic.  `open(path, 'w')`
truncates the stored file before `json.dump` runs, so when the dump
fails the invocation surfaces the write error with the file already
truncated: the previously persisted document is destroyed, and the
final on-disk state differs from the prior one. -/
theorem persist_truncates_before_write (env : SummEnv) (fs0 : FileState)
    (now : String) (events : Nat → TransportEvent) (v : MsgVal) (c : Bool)
    (hpath : env.msg_file_path ≠ "")
    (hstart : env.msg_file_clear_at_start = true)
    (hch : env.munki_repo_changed = false)
    (hfin : env.msg_file_clear_at_finish = false)
    (hfs : fs0 = FileState.file (FileContent.jsonOf v c)) :
    summarizerMain env fs0 now events true =
      ⟨FileState.file FileContent.notJson, 0, 0, Except.error Err.writeError⟩ ∧
    (summarizerMain env fs0 now events true).fs ≠ fs0 := by
  have hmain : summarizerMain env fs0 now events true =
      ⟨FileState.file FileContent.notJson, 0, 0, Except.error Err.writeError⟩ := by
    unfold summarizerMain acquireMessage
    simp [hpath, hstart, hch, hfin]
  refine ⟨hmain, ?_⟩
  rw [hmain, hfs]
  simp

/-- Witness for C10 at a concrete input. -/
theorem persist_truncates_before_write_witness :
    summarizerMain envC10 (FileState.file (FileContent.jsonOf (MsgVal.msg oneFactDoc) true))
        "2024-01-01 00:00:00" okTransport true =
      ⟨FileState.file FileContent.notJson, 0, 0, Except.error Err.writeError⟩ ∧
    (summarizerMain envC10 (FileState.file (FileContent.jsonOf (MsgVal.msg oneFactDoc) true))
        "2024-01-01 00:00:00" okTransport true).fs ≠
      FileState.file (FileContent.jsonOf (MsgVal.msg oneFactDoc) true) :=
  persist_truncates_before_write envC10 _ "2024-01-01 00:00:00" okTransport
    (MsgVal.msg oneFactDoc) true (by decide) rfl rfl rfl rfl
